import Mathlib

/-!
Verification of the trading-journal analytics core.

Shallow embedding of the derived-field calculators, aggregation functions,
streak/drawdown trackers, validation rules and write-path operations of the
repository.  Sources:

  * `src/js/data-manager.js`   -- namespace `DataManager` below
  * `src/js/calculations.js`   -- namespace `Calculations` below
  * `src/pages/settings.js`    -- namespace `Pages` below (the add-trade form
    validator `validateFormData`)

Modelling conventions:

  * JS numbers are rationals (`ℚ`).  A JS expression that can evaluate to a
    non-finite number (`NaN` / `Infinity`, arising only from division by zero
    in this code base) is modelled with `Option ℚ`, `none` standing for any
    non-finite result (`jsDiv`).
  * Optional record fields are `Option` valued.  JS truthiness of an optional
    number (`!x`, `x || d`, `if (x)`) treats both `undefined` and `0` as
    falsy; `truthyQ` and `jsOr` reproduce that.
  * Required numeric fields (`positionSize`, `entryPrice`) are plain `ℚ`;
    the JS falsy check `!x` on them coincides with `x = 0`, which the
    adjacent `x <= 0` check subsumes in the validator.
  * Date strings are modelled as `Option Int` timestamps, ordered as the JS
    `Date` comparison orders the strings in the source; a present date string
    is always truthy.
  * `Array.prototype.sort` with a numeric comparator is a stable sort; it is
    modelled by a stable insertion sort (`insertionSortBy`), where
    `before a b = true` means `a` must be strictly before `b`.
  * Journaling-only fields (strategy, rationale, tags, rating, timestamps)
    never feed any computation under scrutiny and are omitted from the record.
-/

inductive AssetType where
  | stocks
  | forex
  | crypto
  | options
deriving DecidableEq

inductive Direction where
  | long
  | short
deriving DecidableEq

inductive Status where
  | open
  | closed
  | cancelled
deriving DecidableEq

/-- Trade record (source fields plus the six stored derived fields), from the
data model used uniformly by `data-manager.js` and `calculations.js`. -/
structure Trade where
  id : Nat
  assetType : Option AssetType
  symbol : Option String
  direction : Option Direction
  status : Status
  positionSize : ℚ
  entryPrice : ℚ
  entryDate : Option Int
  exitPrice : Option ℚ
  exitDate : Option Int
  commission : Option ℚ
  stopLoss : Option ℚ
  takeProfit : Option ℚ
  accountSize : Option ℚ
  profitLoss : ℚ
  profitLossPercent : Option ℚ
  riskAmount : ℚ
  rewardAmount : ℚ
  riskRewardRatio : ℚ
  riskPercent : ℚ
deriving DecidableEq

/-- Settings fields consumed by the calculators (`getDefaultSettings` in
`data-manager.js`; only the numeric fields feed any computation). -/
structure Settings where
  accountSize : ℚ
  riskPerTrade : ℚ
deriving DecidableEq

/-- Result shape of `calculateStreaks` in `data-manager.js`. -/
structure Streaks where
  current : Int
  best : Int
  worst : Int
deriving DecidableEq

/-- JS truthiness of an optional number: `undefined` and `0` are falsy. -/
def truthyQ (o : Option ℚ) : Bool :=
  match o with
  | none => false
  | some v => decide (v ≠ 0)

/-- JS `x || d` on an optional number: the default replaces both a missing
value and `0`. -/
def jsOr (o : Option ℚ) (d : ℚ) : ℚ :=
  match o with
  | none => d
  | some v => if v = 0 then d else v

/-- JS division where a zero denominator produces a non-finite number
(`NaN` or `Infinity`), modelled as `none`. -/
def jsDiv (a b : ℚ) : Option ℚ :=
  if b = 0 then none else some (a / b)

/-- JS `trade.direction === "long"`. -/
def dirIsLong (t : Trade) : Bool :=
  decide (t.direction = some Direction.long)

/-- JS `String.prototype.trim`: drop whitespace from both ends (modelled
structurally over the character list so that it evaluates). -/
def jsTrim (s : String) : String :=
  String.mk (((s.data.dropWhile Char.isWhitespace).reverse.dropWhile Char.isWhitespace).reverse)

/-- Sort key for streak/drawdown ordering: `new Date(trade.exitDate)`. -/
def exitKey (t : Trade) : Int :=
  t.exitDate.getD 0

/-- Stable insertion into a sorted list: `x` moves past `y` only when `y`
must be strictly before `x`, so that elements comparing equal keep their
original relative order, as the stable JS `Array.prototype.sort` does. -/
def insertBy (before : α → α → Bool) (x : α) : List α → List α
  | [] => [x]
  | y :: ys => if before y x then y :: insertBy before x ys else x :: y :: ys

/-- Stable insertion sort modelling `Array.prototype.sort(comparator)`. -/
def insertionSortBy (before : α → α → Bool) : List α → List α
  | [] => []
  | x :: xs => insertBy before x (insertionSortBy before xs)

/-- Sort descending by exit date: `(a, b) => new Date(b.exitDate) - new Date(a.exitDate)`. -/
def sortByExitDateDesc (ts : List Trade) : List Trade :=
  insertionSortBy (fun u v => decide (exitKey v < exitKey u)) ts

/-- Sort ascending by exit date: `(a, b) => new Date(a.exitDate) - new Date(b.exitDate)`. -/
def sortByExitDateAsc (ts : List Trade) : List Trade :=
  insertionSortBy (fun u v => decide (exitKey u < exitKey v)) ts

namespace DataManager

/-- From `data-manager.js` `calculateProfitLoss` (lines 345-357). -/
def calculateProfitLoss (t : Trade) : ℚ :=
  if ¬ truthyQ t.exitPrice ∨ t.status = Status.open then 0
  else
    let exit := t.exitPrice.getD 0
    let priceDiff := if dirIsLong t then exit - t.entryPrice else t.entryPrice - exit
    let grossPL := priceDiff * t.positionSize
    grossPL - (t.commission.getD 0)

/-- From `data-manager.js` `calculateProfitLossPercent` (lines 362-369).
There is no guard on the entry value, so a zero entry value on a closed
trade divides by zero (`none` = non-finite). -/
def calculateProfitLossPercent (t : Trade) : Option ℚ :=
  if ¬ truthyQ t.exitPrice ∨ t.status = Status.open then some 0
  else
    let entryValue := t.entryPrice * t.positionSize
    let netPL := calculateProfitLoss t
    (jsDiv netPL entryValue).map (fun q => q * 100)

/-- From `data-manager.js` `calculateRiskAmount` (lines 374-383). -/
def calculateRiskAmount (t : Trade) : ℚ :=
  if ¬ truthyQ t.stopLoss then 0
  else
    let sl := t.stopLoss.getD 0
    let priceRisk := if dirIsLong t then t.entryPrice - sl else sl - t.entryPrice
    priceRisk * t.positionSize

/-- From `data-manager.js` `calculateRewardAmount` (lines 388-397). -/
def calculateRewardAmount (t : Trade) : ℚ :=
  if ¬ truthyQ t.takeProfit then 0
  else
    let tp := t.takeProfit.getD 0
    let priceReward := if dirIsLong t then tp - t.entryPrice else t.entryPrice - tp
    priceReward * t.positionSize

/-- From `data-manager.js` `calculateRiskRewardRatio` (lines 402-408). -/
def calculateRiskRewardRatio (t : Trade) : ℚ :=
  let riskAmount := calculateRiskAmount t
  let rewardAmount := calculateRewardAmount t
  if riskAmount = 0 then 0 else rewardAmount / riskAmount

/-- From `data-manager.js` `calculateRiskPercent` (lines 413-419); the
fallback account size is the literal `10000`. -/
def calculateRiskPercent (t : Trade) : ℚ :=
  let riskAmount := calculateRiskAmount t
  let accountSize := jsOr t.accountSize 10000
  if accountSize = 0 then 0 else riskAmount / accountSize * 100

/-- From `data-manager.js` `validateTrade` (lines 294-340).  Appends every
violation to one list, never short-circuiting. -/
def validateTrade (t : Trade) : List String :=
  (if t.assetType = none then ["Asset type is required"] else [])
  ++ (if t.symbol = none ∨ jsTrim (t.symbol.getD "") = "" then ["Symbol is required"] else [])
  ++ (if t.direction = none then ["Direction is required"] else [])
  ++ (if t.positionSize ≤ 0 then ["Position size must be greater than 0"] else [])
  ++ (if t.entryPrice ≤ 0 then ["Entry price must be greater than 0"] else [])
  ++ (if t.entryDate = none then ["Entry date is required"] else [])
  ++ (if truthyQ t.exitPrice ∧ t.exitPrice.getD 0 ≤ 0 then ["Exit price must be greater than 0"] else [])
  ++ (if truthyQ t.stopLoss ∧ t.stopLoss.getD 0 ≤ 0 then ["Stop loss must be greater than 0"] else [])
  ++ (if truthyQ t.takeProfit ∧ t.takeProfit.getD 0 ≤ 0 then ["Take profit must be greater than 0"] else [])
  ++ (if t.exitDate ≠ none ∧ t.entryDate ≠ none ∧ t.exitDate.getD 0 < t.entryDate.getD 0
      then ["Exit date cannot be before entry date"] else [])
  ++ (if truthyQ t.accountSize ∧ t.riskAmount ≠ 0 ∧ t.accountSize.getD 0 < t.riskAmount
      then ["Risk amount cannot exceed account size"] else [])

/-- One step of the streak loop in `calculateStreaks` (lines 683-700); the
state is `(tempStreak, bestStreak, worstStreak)`. -/
def streakStep (s : Int × Int × Int) (t : Trade) : Int × Int × Int :=
  let temp := s.1
  let temp2 :=
    if 0 < t.profitLoss then (if 0 ≤ temp then temp + 1 else 1)
    else if t.profitLoss < 0 then (if temp ≤ 0 then temp - 1 else -1)
    else temp
  (temp2, max s.2.1 temp2, min s.2.2 temp2)

/-- From `data-manager.js` `calculateStreaks` (lines 668-705).  The input
is sorted descending by exit date (most recent first) and scanned in that
order; `current` is the counter after the chronologically earliest trade. -/
def calculateStreaks (trades : List Trade) : Streaks :=
  if trades.length = 0 then { current := 0, best := 0, worst := 0 }
  else
    let sortedTrades := sortByExitDateDesc trades
    let r := sortedTrades.foldl streakStep (0, 0, 0)
    { current := r.1, best := r.2.1, worst := r.2.2 }

/-- Drawdown scan shared by both `calculateMaxDrawdown` implementations:
running total and running peak start at 0, the maximum of
`peak - runningTotal` is kept. -/
def ddScan : ℚ → ℚ → ℚ → List Trade → ℚ
  | _, maxDD, _, [] => maxDD
  | peak, maxDD, total, t :: rest =>
    let total2 := total + t.profitLoss
    let peak2 := max peak total2
    ddScan peak2 (max maxDD (peak2 - total2)) total2 rest

/-- From `data-manager.js` `calculateMaxDrawdown` (lines 710-730); the input
is the already-closed subset, sorted ascending by exit date. -/
def calculateMaxDrawdown (trades : List Trade) : ℚ :=
  if trades.length = 0 then 0
  else ddScan 0 0 0 (sortByExitDateAsc trades)

/-- The six derived-field assignments performed in order on the stored
record by `addTrade` (lines 126-131) and `updateTrade` (lines 167-176). -/
def recomputeDerived (t0 : Trade) : Trade :=
  let t1 := { t0 with profitLoss := calculateProfitLoss t0 }
  let t2 := { t1 with profitLossPercent := calculateProfitLossPercent t1 }
  let t3 := { t2 with riskAmount := calculateRiskAmount t2 }
  let t4 := { t3 with rewardAmount := calculateRewardAmount t3 }
  let t5 := { t4 with riskRewardRatio := calculateRiskRewardRatio t4 }
  { t5 with riskPercent := calculateRiskPercent t5 }

/-- From `data-manager.js` `addTrade` (lines 108-137).  The stored
collection is the first component; `generateId` is abstracted as the
supplied fresh `nextId`. -/
def addTrade (trades : List Trade) (nextId : Nat) (tradeData : Trade) :
    List Trade × Except String Trade :=
  let validationErrors := validateTrade tradeData
  if validationErrors ≠ [] then
    (trades, Except.error (String.intercalate (", ") validationErrors))
  else
    let newTrade := recomputeDerived { tradeData with id := nextId }
    (trades ++ [newTrade], Except.ok newTrade)

end DataManager

/-- Partial update object passed to `updateTrade`: a present field replaces
the stored one, as the object spread `{...trades[index], ...updates}` does. -/
structure Updates where
  id : Option Nat := none
  assetType : Option (Option AssetType) := none
  symbol : Option (Option String) := none
  direction : Option (Option Direction) := none
  status : Option Status := none
  positionSize : Option ℚ := none
  entryPrice : Option ℚ := none
  entryDate : Option (Option Int) := none
  exitPrice : Option (Option ℚ) := none
  exitDate : Option (Option Int) := none
  commission : Option (Option ℚ) := none
  stopLoss : Option (Option ℚ) := none
  takeProfit : Option (Option ℚ) := none
  accountSize : Option (Option ℚ) := none
  profitLoss : Option ℚ := none
  profitLossPercent : Option (Option ℚ) := none
  riskAmount : Option ℚ := none
  rewardAmount : Option ℚ := none
  riskRewardRatio : Option ℚ := none
  riskPercent : Option ℚ := none
deriving DecidableEq

/-- Object spread `{...t, ...u}` over the modelled fields. -/
def applyUpdates (t : Trade) (u : Updates) : Trade :=
  { id := u.id.getD t.id
    assetType := u.assetType.getD t.assetType
    symbol := u.symbol.getD t.symbol
    direction := u.direction.getD t.direction
    status := u.status.getD t.status
    positionSize := u.positionSize.getD t.positionSize
    entryPrice := u.entryPrice.getD t.entryPrice
    entryDate := u.entryDate.getD t.entryDate
    exitPrice := u.exitPrice.getD t.exitPrice
    exitDate := u.exitDate.getD t.exitDate
    commission := u.commission.getD t.commission
    stopLoss := u.stopLoss.getD t.stopLoss
    takeProfit := u.takeProfit.getD t.takeProfit
    accountSize := u.accountSize.getD t.accountSize
    profitLoss := u.profitLoss.getD t.profitLoss
    profitLossPercent := u.profitLossPercent.getD t.profitLossPercent
    riskAmount := u.riskAmount.getD t.riskAmount
    rewardAmount := u.rewardAmount.getD t.rewardAmount
    riskRewardRatio := u.riskRewardRatio.getD t.riskRewardRatio
    riskPercent := u.riskPercent.getD t.riskPercent }

/-- JS `Array.prototype.findIndex`: index of the first match, if any. -/
def findIndex (p : α → Bool) : List α → Option Nat
  | [] => none
  | x :: xs => if p x then some 0 else (findIndex p xs).map (fun i => i + 1)

namespace DataManager

/-- From `data-manager.js` `updateTrade` (lines 142-180): find the trade by
id, validate the merged record, store it with derived fields recomputed.
The `trades.get? index = none` branch is unreachable because `findIndex`
only returns valid indices. -/
def updateTrade (trades : List Trade) (tradeId : Nat) (updates : Updates) :
    List Trade × Except String Trade :=
  match findIndex (fun t => t.id == tradeId) trades with
  | none => (trades, Except.error ("Trade not found"))
  | some index =>
    match trades[index]? with
    | none => (trades, Except.error ("Trade not found"))
    | some old =>
      let merged := applyUpdates old updates
      let validationErrors := validateTrade merged
      if validationErrors ≠ [] then
        (trades, Except.error (String.intercalate (", ") validationErrors))
      else
        let updated := recomputeDerived merged
        (trades.set index updated, Except.ok updated)

/-- From `data-manager.js` `deleteTrade` (lines 185-195). -/
def deleteTrade (trades : List Trade) (tradeId : Nat) :
    List Trade × Except String Unit :=
  let filteredTrades := trades.filter (fun t => !(t.id == tradeId))
  if filteredTrades.length = trades.length then
    (trades, Except.error ("Trade not found"))
  else
    (filteredTrades, Except.ok ())

/-- From `data-manager.js` `getTrade` (lines 200-209). -/
def getTrade (trades : List Trade) (tradeId : Nat) : Except String Trade :=
  match trades.find? (fun t => t.id == tradeId) with
  | none => Except.error ("Trade not found")
  | some t => Except.ok t

end DataManager

namespace Calculations

/-- From `calculations.js` `calculateProfitLoss` (lines 14-26). -/
def calculateProfitLoss (t : Trade) : ℚ :=
  if ¬ truthyQ t.exitPrice ∨ t.status = Status.open then 0
  else
    let exit := t.exitPrice.getD 0
    let priceDiff := if dirIsLong t then exit - t.entryPrice else t.entryPrice - exit
    let grossPL := priceDiff * t.positionSize
    grossPL - (t.commission.getD 0)

/-- From `calculations.js` `calculateProfitLossPercent` (lines 31-38); unlike
the data-manager variant, it guards the entry value (`entryValue > 0`). -/
def calculateProfitLossPercent (t : Trade) : ℚ :=
  if ¬ truthyQ t.exitPrice ∨ t.status = Status.open then 0
  else
    let entryValue := t.entryPrice * t.positionSize
    let netPL := calculateProfitLoss t
    if 0 < entryValue then netPL / entryValue * 100 else 0

/-- From `calculations.js` `calculateRiskAmount` (lines 43-52). -/
def calculateRiskAmount (t : Trade) : ℚ :=
  if ¬ truthyQ t.stopLoss then 0
  else
    let sl := t.stopLoss.getD 0
    let priceRisk := if dirIsLong t then t.entryPrice - sl else sl - t.entryPrice
    priceRisk * t.positionSize

/-- From `calculations.js` `calculateRewardAmount` (lines 57-66). -/
def calculateRewardAmount (t : Trade) : ℚ :=
  if ¬ truthyQ t.takeProfit then 0
  else
    let tp := t.takeProfit.getD 0
    let priceReward := if dirIsLong t then tp - t.entryPrice else t.entryPrice - tp
    priceReward * t.positionSize

/-- From `calculations.js` `calculateRiskRewardRatio` (lines 71-77). -/
def calculateRiskRewardRatio (t : Trade) : ℚ :=
  let riskAmount := calculateRiskAmount t
  let rewardAmount := calculateRewardAmount t
  if riskAmount = 0 then 0 else rewardAmount / riskAmount

/-- From `calculations.js` `calculateRiskPercent` (lines 82-88); the fallback
account size is `this.settings.accountSize`, the active configuration. -/
def calculateRiskPercent (settings : Settings) (t : Trade) : ℚ :=
  let riskAmount := calculateRiskAmount t
  let accountSize := jsOr t.accountSize settings.accountSize
  if accountSize = 0 then 0 else riskAmount / accountSize * 100

/-- From `calculations.js` `calculateWinRate` (lines 93-99). -/
def calculateWinRate (trades : List Trade) : ℚ :=
  let closedTrades := trades.filter (fun t => decide (t.status = Status.closed))
  if closedTrades.length = 0 then 0
  else
    let winningTrades := closedTrades.filter (fun t => decide (0 < t.profitLoss))
    (winningTrades.length : ℚ) / (closedTrades.length : ℚ) * 100

/-- From `calculations.js` `calculateProfitFactor` (lines 104-120). -/
def calculateProfitFactor (trades : List Trade) : ℚ :=
  let closedTrades := trades.filter (fun t => decide (t.status = Status.closed))
  if closedTrades.length = 0 then 0
  else
    let winningTrades := closedTrades.filter (fun t => decide (0 < t.profitLoss))
    let losingTrades := closedTrades.filter (fun t => decide (t.profitLoss < 0))
    let totalProfit := winningTrades.foldl (fun sum t => sum + t.profitLoss) 0
    let totalLoss := |losingTrades.foldl (fun sum t => sum + t.profitLoss) 0|
    if 0 < totalLoss then totalProfit / totalLoss else 0

/-- From `calculations.js` `calculateMaxDrawdown` (lines 195-216); filters to
the closed subset itself, then runs the same ascending-exit-date scan. -/
def calculateMaxDrawdown (trades : List Trade) : ℚ :=
  let closedTrades := trades.filter (fun t => decide (t.status = Status.closed))
  if closedTrades.length = 0 then 0
  else DataManager.ddScan 0 0 0 (sortByExitDateAsc closedTrades)

end Calculations

namespace Pages

/-- From `src/pages/settings.js` `validateFormData` (lines 737-814): the
add-trade form validator, which also checks the stop-loss / take-profit
side rules and the position-notional rule. -/
def validateFormData (fd : Trade) : List String :=
  (if fd.assetType = none then ["Asset type is required"] else [])
  ++ (if fd.symbol = none ∨ jsTrim (fd.symbol.getD "") = "" then ["Symbol is required"] else [])
  ++ (if fd.direction = none then ["Trade direction is required"] else [])
  ++ (if fd.positionSize ≤ 0 then ["Position size must be greater than 0"] else [])
  ++ (if fd.entryPrice ≤ 0 then ["Entry price must be greater than 0"] else [])
  ++ (if fd.entryDate = none then ["Entry date is required"] else [])
  ++ (if truthyQ fd.exitPrice ∧ fd.exitPrice.getD 0 ≤ 0 then ["Exit price must be greater than 0"] else [])
  ++ (if truthyQ fd.stopLoss ∧ fd.stopLoss.getD 0 ≤ 0 then ["Stop loss must be greater than 0"] else [])
  ++ (if truthyQ fd.takeProfit ∧ fd.takeProfit.getD 0 ≤ 0 then ["Take profit must be greater than 0"] else [])
  ++ (if fd.exitDate ≠ none ∧ fd.entryDate ≠ none ∧ fd.exitDate.getD 0 < fd.entryDate.getD 0
      then ["Exit date cannot be before entry date"] else [])
  ++ (if truthyQ fd.stopLoss ∧ fd.entryPrice ≠ 0 ∧
        ¬ (if dirIsLong fd then fd.stopLoss.getD 0 < fd.entryPrice else fd.entryPrice < fd.stopLoss.getD 0)
      then ["Stop loss must be below entry price for long positions and above for short positions"] else [])
  ++ (if truthyQ fd.takeProfit ∧ fd.entryPrice ≠ 0 ∧
        ¬ (if dirIsLong fd then fd.entryPrice < fd.takeProfit.getD 0 else fd.takeProfit.getD 0 < fd.entryPrice)
      then ["Take profit must be above entry price for long positions and below for short positions"] else [])
  ++ (if truthyQ fd.accountSize ∧ fd.positionSize ≠ 0 ∧ fd.entryPrice ≠ 0 ∧ truthyQ fd.stopLoss ∧
        fd.accountSize.getD 0 < fd.positionSize * fd.entryPrice
      then ["Position value cannot exceed account size"] else [])

end Pages

/-! Specification-side drawdown formulation (section 4.3 of the spec): the
running equity total starts at 0, the running peak is its high-water mark,
and the result is the maximum over all steps of `peak - runningTotal`. -/

/-- Running equity total after the first `k` profit/loss values. -/
def runningTotal (pls : List ℚ) (k : ℕ) : ℚ :=
  (pls.take k).sum

/-- High-water mark of the running total over steps `0..k` (the total starts
at 0, so the peak is never below 0). -/
def runningPeak (pls : List ℚ) (k : ℕ) : ℚ :=
  ((List.range (k + 1)).map (fun i => runningTotal pls i)).foldl max 0

/-- Maximum over all steps of `runningPeak - runningTotal`: the drawdown of
a chronological profit/loss sequence as the spec words it. -/
def specMaxDrawdown (pls : List ℚ) : ℚ :=
  ((List.range (pls.length + 1)).map (fun k => runningPeak pls k - runningTotal pls k)).foldl max 0

/-- Peak value reached after `k` scan steps when the scan starts with peak
`peak` and running total `total` (proof-internal generalisation). -/
def peakFrom (peak total : ℚ) (pls : List ℚ) (k : ℕ) : ℚ :=
  ((List.range k).map (fun i => total + runningTotal pls (i + 1))).foldl max peak

/-- Closed form of the drawdown scan from an arbitrary starting state
(proof-internal generalisation of `specMaxDrawdown`). -/
def scanSpec (peak dd total : ℚ) (pls : List ℚ) : ℚ :=
  ((List.range pls.length).map
    (fun k => peakFrom peak total pls (k + 1) - (total + runningTotal pls (k + 1)))).foldl max dd

/-! Concrete inputs used by the claims. -/

/-- Baseline closed long trade; examples override individual fields. -/
def baseTrade : Trade where
  id := 0
  assetType := some AssetType.stocks
  symbol := some ("AAPL")
  direction := some Direction.long
  status := Status.closed
  positionSize := 1
  entryPrice := 1
  entryDate := some 0
  exitPrice := some 1
  exitDate := some 0
  commission := none
  stopLoss := none
  takeProfit := none
  accountSize := none
  profitLoss := 0
  profitLossPercent := some 0
  riskAmount := 0
  rewardAmount := 0
  riskRewardRatio := 0
  riskPercent := 0

/-- Closed trades whose chronological (exit-date ascending) profit/loss
sequence is [+1, +1, -1, +1], the sequence of the streak claim. -/
def streakExample : List Trade :=
  [ { baseTrade with id := 1, exitDate := some 1, profitLoss := 1 },
    { baseTrade with id := 2, exitDate := some 2, profitLoss := 1 },
    { baseTrade with id := 3, exitDate := some 3, profitLoss := -1 },
    { baseTrade with id := 4, exitDate := some 4, profitLoss := 1 } ]

/-- Cancelled trade with an exit price: entry 100, exit 150, size 10, long. -/
def cancelledTrade : Trade :=
  { baseTrade with status := Status.cancelled, entryPrice := 100,
                   exitPrice := some 150, positionSize := 10 }

/-- Open trade used to instantiate the zero-guard theorems. -/
def openTrade : Trade :=
  { baseTrade with status := Status.open, exitPrice := none }

/-- Closed trade with entry value 0 (entry price 0, size 100) and exit 5:
the degenerate input for the profit/loss-percentage guard. -/
def zeroEntryTrade : Trade :=
  { baseTrade with entryPrice := 0, positionSize := 100, exitPrice := some 5 }

/-- Long trade whose stop loss (160) sits above the entry price (150), on
the profit side; every other field is valid. -/
def wrongSideStopTrade : Trade :=
  { baseTrade with entryPrice := 150, positionSize := 10,
                   exitPrice := none, stopLoss := some 160 }

/-- Form data with a wrong-side stop loss (160 above entry 150 on a long)
and a wrong-side take profit (140 below entry 150 on a long). -/
def wrongSideForm : Trade :=
  { baseTrade with entryPrice := 150, positionSize := 10, exitPrice := none,
                   stopLoss := some 160, takeProfit := some 140 }

/-- Valid trade data for the create-path theorems: long 100 shares,
entry 150, exit 156, commission 5, stop 148, take profit 152. -/
def validTradeData : Trade :=
  { baseTrade with positionSize := 100, entryPrice := 150,
                   exitPrice := some 156, exitDate := some 10,
                   commission := some 5, stopLoss := some 148,
                   takeProfit := some 152, accountSize := some 100000 }

/-- Stored trade used as the pre-state of the update-path theorems (all
fields are plain literals; the derived fields are whatever was stored by
the previous write and get recomputed by the update). -/
def storedTrade : Trade :=
  { validTradeData with id := 1, profitLoss := 595, profitLossPercent := some 4,
                        riskAmount := 200, rewardAmount := 200,
                        riskRewardRatio := 1, riskPercent := 1 }

/-- Update changing only the exit price. -/
def exitPriceUpdate : Updates :=
  { exitPrice := some (some 152) }

/-- Record produced by the create-path witness. -/
def addedTrade : Trade :=
  DataManager.recomputeDerived { validTradeData with id := 1 }

/-- Record produced by the update-path witness. -/
def updatedTrade : Trade :=
  DataManager.recomputeDerived (applyUpdates storedTrade exitPriceUpdate)

/-- Trade data failing validation (blank symbol and position size 0). -/
def invalidTradeData : Trade :=
  { baseTrade with symbol := some (" "), positionSize := 0 }

/-- Three closed trades with stored profit/loss +520, -47, +300. -/
def winRateExample : List Trade :=
  [ { baseTrade with id := 1, exitDate := some 1, profitLoss := 520 },
    { baseTrade with id := 2, exitDate := some 2, profitLoss := -47 },
    { baseTrade with id := 3, exitDate := some 3, profitLoss := 300 } ]

/-- Closed trades given out of order whose exit-date ascending profit/loss
sequence is [+100, -150, +50], the sequence of the drawdown claim. -/
def drawdownExample : List Trade :=
  [ { baseTrade with id := 1, exitDate := some 3, profitLoss := 50 },
    { baseTrade with id := 2, exitDate := some 1, profitLoss := 100 },
    { baseTrade with id := 3, exitDate := some 2, profitLoss := -150 } ]

/-- Long trade risking 10 from entry 100 to stop 90 on 10 units
(risk amount 100) with no account size of its own. -/
def noAccountTrade : Trade :=
  { baseTrade with entryPrice := 100, positionSize := 10,
                   stopLoss := some 90, accountSize := none }

/-- Active configuration with a default account size of 20000. -/
def activeSettings : Settings where
  accountSize := 20000
  riskPerTrade := 2

/-- Closed trades that are all losers (for the streak-sign witness). -/
def allLosersExample : List Trade :=
  [ { baseTrade with id := 1, exitDate := some 1, profitLoss := -5 },
    { baseTrade with id := 2, exitDate := some 2, profitLoss := -3 } ]

/-- Closed trades that are all winners (for the streak-sign witness). -/
def allWinnersExample : List Trade :=
  [ { baseTrade with id := 1, exitDate := some 1, profitLoss := 7 },
    { baseTrade with id := 2, exitDate := some 2, profitLoss := 2 } ]

/-- Derived-field consistency of a stored record: each of the six stored
derived fields equals its pure recomputation from the record itself. -/
def derivedConsistent (t : Trade) : Prop :=
  t.profitLoss = DataManager.calculateProfitLoss t
  ∧ t.profitLossPercent = DataManager.calculateProfitLossPercent t
  ∧ t.riskAmount = DataManager.calculateRiskAmount t
  ∧ t.rewardAmount = DataManager.calculateRewardAmount t
  ∧ t.riskRewardRatio = DataManager.calculateRiskRewardRatio t
  ∧ t.riskPercent = DataManager.calculateRiskPercent t

theorem mem_insertBy {r : α → α → Bool} {x a : α} {l : List α} :
    a ∈ insertBy r x l ↔ a = x ∨ a ∈ l := by
  induction l with
  | nil => simp [insertBy]
  | cons y ys ih =>
    by_cases h : r y x <;> simp [insertBy, h, ih] <;> tauto

theorem mem_insertionSortBy {r : α → α → Bool} {a : α} {l : List α} :
    a ∈ insertionSortBy r l ↔ a ∈ l := by
  induction l with
  | nil => simp [insertionSortBy]
  | cons x xs ih => simp [insertionSortBy, mem_insertBy, ih]

/-- Claim C1, counterexample: for the chronological profit/loss sequence
[+1, +1, -1, +1] the tracker does not return currentStreak = +1 (it scans
most-recent-first, so the value is +2, the streak at the earliest trade). -/
theorem C1_counterexample : (DataManager.calculateStreaks streakExample).current ≠ 1 := by
  decide

/-- Claim C1 (amended): `calculateStreaks` sorts descending by exit date and
scans most-recent-first, so `currentStreak` is the streak ending at the
trade with the earliest exit date; for the chronological sequence
[+1, +1, -1, +1] it returns bestStreak = 2, worstStreak = -1 and
currentStreak = +2. -/
theorem C1_theorem :
    DataManager.calculateStreaks streakExample = { current := 2, best := 2, worst := -1 } := by
  decide

/-- Claim C2, counterexample: a cancelled trade with an exit price gets a
computed profit/loss (here 500), not 0, because only status "open" and a
missing exit price are guarded. -/
theorem C2_counterexample :
    cancelledTrade.status = Status.cancelled ∧ DataManager.calculateProfitLoss cancelledTrade ≠ 0 := by
  refine ⟨rfl, ?_⟩
  norm_num [DataManager.calculateProfitLoss, cancelledTrade, baseTrade, truthyQ, dirIsLong]
  decide

/-- Claim C2 (amended): for every trade whose exit price is absent (or 0,
which JS truthiness treats as absent) or whose status is open, profitLoss
and profitLossPercent are exactly 0 in both implementations; status
cancelled is not guarded. -/
theorem C2_theorem (t : Trade) (h : ¬ truthyQ t.exitPrice ∨ t.status = Status.open) :
    DataManager.calculateProfitLoss t = 0
    ∧ Calculations.calculateProfitLoss t = 0
    ∧ DataManager.calculateProfitLossPercent t = some 0
    ∧ Calculations.calculateProfitLossPercent t = 0 := by
  refine ⟨?_, ?_, ?_, ?_⟩ <;>
    simp only [DataManager.calculateProfitLoss, Calculations.calculateProfitLoss,
      DataManager.calculateProfitLossPercent, Calculations.calculateProfitLossPercent, if_pos h]

/-- Claim C2, witness at the open trade. -/
theorem C2_witness :
    DataManager.calculateProfitLoss openTrade = 0
    ∧ Calculations.calculateProfitLoss openTrade = 0
    ∧ DataManager.calculateProfitLossPercent openTrade = some 0
    ∧ Calculations.calculateProfitLossPercent openTrade = 0 :=
  C2_theorem openTrade (by decide)

/-- Claim C3, counterexample: the data-manager implementation of
`calculateProfitLossPercent` has no entry-value guard, so a closed trade
with entry value 0 produces a non-finite value (modelled as `none`)
instead of 0. -/
theorem C3_counterexample : DataManager.calculateProfitLossPercent zeroEntryTrade = none := by
  norm_num [DataManager.calculateProfitLossPercent, DataManager.calculateProfitLoss,
    zeroEntryTrade, baseTrade, truthyQ, dirIsLong, jsDiv]
  decide

/-- Claim C3 (amended): the `calculations.js` implementation returns 0
whenever the entry value is not positive or the trade is not closed and is
total on ℚ; the data-manager implementation is finite whenever the entry
value is nonzero, but lacks the entry-value guard. -/
theorem C3_theorem (t : Trade) :
    ((t.entryPrice * t.positionSize ≤ 0 ∨ ¬ truthyQ t.exitPrice ∨ t.status = Status.open) →
      Calculations.calculateProfitLossPercent t = 0)
    ∧ (t.entryPrice * t.positionSize ≠ 0 →
      ∃ q : ℚ, DataManager.calculateProfitLossPercent t = some q) := by
  constructor
  · intro h
    by_cases hg : ¬ truthyQ t.exitPrice ∨ t.status = Status.open
    · simp only [Calculations.calculateProfitLossPercent, if_pos hg]
    · have hev : t.entryPrice * t.positionSize ≤ 0 := by tauto
      simp only [Calculations.calculateProfitLossPercent, if_neg hg]
      rw [if_neg (not_lt.mpr hev)]
  · intro h
    by_cases hg : ¬ truthyQ t.exitPrice ∨ t.status = Status.open
    · exact ⟨0, by simp only [DataManager.calculateProfitLossPercent, if_pos hg]⟩
    · refine ⟨DataManager.calculateProfitLoss t / (t.entryPrice * t.positionSize) * 100, ?_⟩
      simp only [DataManager.calculateProfitLossPercent, if_neg hg, jsDiv, if_neg h,
        Option.map_some']

/-- Claim C3, witness: the guarded implementation returns 0 on the
degenerate zero-entry trade, and the data-manager implementation is finite
on the valid trade data. -/
theorem C3_witness :
    Calculations.calculateProfitLossPercent zeroEntryTrade = 0
    ∧ (∃ q : ℚ, DataManager.calculateProfitLossPercent validTradeData = some q) :=
  ⟨(C3_theorem zeroEntryTrade).1 (Or.inl (by norm_num [zeroEntryTrade, baseTrade])),
   (C3_theorem validTradeData).2 (by norm_num [validTradeData, baseTrade])⟩

/-- Claim C4, counterexample: the store validator `validateTrade` applied
before create/update has no stop-loss side rule, so a long trade whose stop
loss (160) sits above the entry price (150) validates with an empty list. -/
theorem C4_counterexample : DataManager.validateTrade wrongSideStopTrade = [] := by
  decide

/-- Claim C4 (amended): the store validator collects violations without
short-circuiting but contains no stop-loss/take-profit side rules; those
side rules live only in the add-trade form validator `validateFormData`,
which reports a violation for every wrong-side stop loss or take profit. -/
theorem C4_theorem (fd : Trade) :
    (truthyQ fd.stopLoss → fd.entryPrice ≠ 0 →
      ¬ (if dirIsLong fd then fd.stopLoss.getD 0 < fd.entryPrice
         else fd.entryPrice < fd.stopLoss.getD 0) →
      ("Stop loss must be below entry price for long positions and above for short positions")
        ∈ Pages.validateFormData fd)
    ∧ (truthyQ fd.takeProfit → fd.entryPrice ≠ 0 →
      ¬ (if dirIsLong fd then fd.entryPrice < fd.takeProfit.getD 0
         else fd.takeProfit.getD 0 < fd.entryPrice) →
      ("Take profit must be above entry price for long positions and below for short positions")
        ∈ Pages.validateFormData fd) := by
  constructor
  · intro h1 h2 h3
    have hmem : ("Stop loss must be below entry price for long positions and above for short positions")
        ∈ (if truthyQ fd.stopLoss ∧ fd.entryPrice ≠ 0 ∧
              ¬ (if dirIsLong fd then fd.stopLoss.getD 0 < fd.entryPrice
                 else fd.entryPrice < fd.stopLoss.getD 0)
           then ["Stop loss must be below entry price for long positions and above for short positions"]
           else []) := by
      rw [if_pos ⟨h1, h2, h3⟩]; exact List.mem_singleton.mpr rfl
    unfold Pages.validateFormData
    exact List.mem_append.mpr (Or.inl (List.mem_append.mpr (Or.inl
      (List.mem_append.mpr (Or.inr hmem)))))
  · intro h1 h2 h3
    have hmem : ("Take profit must be above entry price for long positions and below for short positions")
        ∈ (if truthyQ fd.takeProfit ∧ fd.entryPrice ≠ 0 ∧
              ¬ (if dirIsLong fd then fd.entryPrice < fd.takeProfit.getD 0
                 else fd.takeProfit.getD 0 < fd.entryPrice)
           then ["Take profit must be above entry price for long positions and below for short positions"]
           else []) := by
      rw [if_pos ⟨h1, h2, h3⟩]; exact List.mem_singleton.mpr rfl
    unfold Pages.validateFormData
    exact List.mem_append.mpr (Or.inl (List.mem_append.mpr (Or.inr hmem)))

/-- Claim C4, witness at the form data carrying both a wrong-side stop loss
and a wrong-side take profit. -/
theorem C4_witness :
    ("Stop loss must be below entry price for long positions and above for short positions")
      ∈ Pages.validateFormData wrongSideForm
    ∧ ("Take profit must be above entry price for long positions and below for short positions")
      ∈ Pages.validateFormData wrongSideForm :=
  ⟨(C4_theorem wrongSideForm).1 (by decide) (by decide) (by decide),
   (C4_theorem wrongSideForm).2 (by decide) (by decide) (by decide)⟩

/-- Claim C8, counterexample: for a trade without its own account size the
stored risk percentage divides by the hardcoded 10000 (giving 1 here), not
by the active configuration default of 20000 (which would give 1/2). -/
theorem C8_counterexample :
    DataManager.calculateRiskPercent noAccountTrade = 1
    ∧ DataManager.calculateRiskPercent noAccountTrade ≠
        DataManager.calculateRiskAmount noAccountTrade / activeSettings.accountSize * 100 := by
  constructor <;>
    norm_num [DataManager.calculateRiskPercent, DataManager.calculateRiskAmount,
      noAccountTrade, baseTrade, activeSettings, truthyQ, dirIsLong, jsOr]

/-- Claim C8 (amended): when a trade has no (or zero) account size, the
data-manager implementation used on every create/update divides by the
literal 10000, while the `calculations.js` implementation falls back to the
configured account size and returns 0 if that is still 0. -/
theorem C8_theorem (s : Settings) (t : Trade)
    (h : t.accountSize = none ∨ t.accountSize = some 0) :
    DataManager.calculateRiskPercent t = DataManager.calculateRiskAmount t / 10000 * 100
    ∧ Calculations.calculateRiskPercent s t =
        (if s.accountSize = 0 then 0
         else Calculations.calculateRiskAmount t / s.accountSize * 100) := by
  have hj : ∀ d : ℚ, jsOr t.accountSize d = d := by
    intro d; rcases h with h | h <;> simp [jsOr, h]
  constructor
  · simp only [DataManager.calculateRiskPercent, hj]
    rw [if_neg (by norm_num)]
  · simp only [Calculations.calculateRiskPercent, hj]

/-- Claim C8, witness at the trade without an account size, against the
active configuration of 20000. -/
theorem C8_witness :
    DataManager.calculateRiskPercent noAccountTrade =
      DataManager.calculateRiskAmount noAccountTrade / 10000 * 100
    ∧ Calculations.calculateRiskPercent activeSettings noAccountTrade =
        (if activeSettings.accountSize = 0 then 0
         else Calculations.calculateRiskAmount noAccountTrade / activeSettings.accountSize * 100) :=
  C8_theorem activeSettings noAccountTrade (by decide)

theorem foldl_add_profitLoss (l : List Trade) (a : ℚ) :
    l.foldl (fun sum t => sum + t.profitLoss) a = a + (l.map (fun t => t.profitLoss)).sum := by
  induction l generalizing a with
  | nil => simp
  | cons t l ih => simp [List.foldl_cons, ih, add_assoc]

theorem sum_profitLoss_neg (l : List Trade) (h : ∀ t ∈ l, t.profitLoss < 0) (hne : l ≠ []) :
    (l.map (fun t => t.profitLoss)).sum < 0 := by
  induction l with
  | nil => exact absurd rfl hne
  | cons t l ih =>
    rcases eq_or_ne l [] with hl | hl
    · subst hl; simpa using h t (by simp)
    · have h1 := h t (by simp)
      have h2 := ih (fun x hx => h x (by simp [hx])) hl
      simp only [List.map_cons, List.sum_cons]
      linarith

/-- Claim C6: winRate is winningCount / closedCount x 100 with winning
meaning strictly positive profit/loss (breakeven trades count only in the
denominator) and 0 with no closed trades; profitFactor is the winners'
profit sum over the absolute losers' loss sum, 0 with no losers; and on
the collection with profit/loss [+520, -47, +300] they give 2/3 x 100 and
820/47. -/
theorem C6_theorem :
    (∀ ts : List Trade,
      Calculations.calculateWinRate ts =
        if ts.filter (fun t => decide (t.status = Status.closed)) = [] then 0
        else (((ts.filter (fun t => decide (t.status = Status.closed))).filter
                 (fun t => decide (0 < t.profitLoss))).length : ℚ)
             / ((ts.filter (fun t => decide (t.status = Status.closed))).length : ℚ) * 100)
    ∧ (∀ ts : List Trade,
      Calculations.calculateProfitFactor ts =
        if (ts.filter (fun t => decide (t.status = Status.closed))).filter
             (fun t => decide (t.profitLoss < 0)) = [] then 0
        else (((ts.filter (fun t => decide (t.status = Status.closed))).filter
                 (fun t => decide (0 < t.profitLoss))).map (fun t => t.profitLoss)).sum
             / |(((ts.filter (fun t => decide (t.status = Status.closed))).filter
                   (fun t => decide (t.profitLoss < 0))).map (fun t => t.profitLoss)).sum|)
    ∧ Calculations.calculateWinRate winRateExample = 2 / 3 * 100
    ∧ Calculations.calculateProfitFactor winRateExample = 820 / 47 := by
  refine ⟨?_, ?_, ?_, ?_⟩
  · intro ts
    by_cases hc : ts.filter (fun t => decide (t.status = Status.closed)) = []
    · simp [Calculations.calculateWinRate, hc]
    · have hlen : (ts.filter (fun t => decide (t.status = Status.closed))).length ≠ 0 :=
        fun h0 => hc (List.length_eq_zero.mp h0)
      simp only [Calculations.calculateWinRate]
      rw [if_neg hlen, if_neg hc]
  · intro ts
    simp only [Calculations.calculateProfitFactor]
    by_cases hc : (ts.filter (fun t => decide (t.status = Status.closed))).length = 0
    · rw [if_pos hc]
      have hnil : ts.filter (fun t => decide (t.status = Status.closed)) = [] :=
        List.length_eq_zero.mp hc
      rw [hnil]
      simp
    · rw [if_neg hc]
      by_cases hl : (ts.filter (fun t => decide (t.status = Status.closed))).filter
          (fun t => decide (t.profitLoss < 0)) = []
      · rw [hl]
        simp
      · rw [if_neg hl]
        have hmem : ∀ t ∈ (ts.filter (fun t => decide (t.status = Status.closed))).filter
            (fun t => decide (t.profitLoss < 0)), t.profitLoss < 0 := by
          intro t ht
          have := (List.mem_filter.mp ht).2
          simpa using this
        have hsum := sum_profitLoss_neg _ hmem hl
        rw [foldl_add_profitLoss, foldl_add_profitLoss]
        simp only [zero_add]
        rw [if_pos (abs_pos.mpr (ne_of_lt hsum))]
  · norm_num [Calculations.calculateWinRate, winRateExample, baseTrade, List.filter]
  · norm_num [Calculations.calculateProfitFactor, winRateExample, baseTrade, List.filter]

theorem streakStep_best_of_neg {s : Int × Int × Int} {t : Trade}
    (hpl : t.profitLoss < 0) (hs : 0 ≤ s.2.1) :
    (DataManager.streakStep s t).2.1 = s.2.1 := by
  simp only [DataManager.streakStep]
  rw [if_neg (lt_asymm hpl), if_pos hpl]
  apply max_eq_left
  by_cases h1 : s.1 ≤ 0
  · rw [if_pos h1]; omega
  · rw [if_neg h1]; omega

theorem streakStep_worst_of_pos {s : Int × Int × Int} {t : Trade}
    (hpl : 0 < t.profitLoss) (hs : s.2.2 ≤ 0) :
    (DataManager.streakStep s t).2.2 = s.2.2 := by
  simp only [DataManager.streakStep]
  rw [if_pos hpl]
  apply min_eq_left
  by_cases h1 : 0 ≤ s.1
  · rw [if_pos h1]; omega
  · rw [if_neg h1]; omega

theorem streak_best_mono (ts : List Trade) :
    ∀ s : Int × Int × Int, s.2.1 ≤ (ts.foldl DataManager.streakStep s).2.1 := by
  induction ts with
  | nil => intro s; exact le_refl _
  | cons t ts ih =>
    intro s
    rw [List.foldl_cons]
    refine le_trans ?_ (ih (DataManager.streakStep s t))
    simp only [DataManager.streakStep]
    exact le_max_left _ _

theorem streak_worst_mono (ts : List Trade) :
    ∀ s : Int × Int × Int, (ts.foldl DataManager.streakStep s).2.2 ≤ s.2.2 := by
  induction ts with
  | nil => intro s; exact le_refl _
  | cons t ts ih =>
    intro s
    rw [List.foldl_cons]
    refine le_trans (ih (DataManager.streakStep s t)) ?_
    simp only [DataManager.streakStep]
    exact min_le_left _ _

theorem streak_all_neg (ts : List Trade) (h : ∀ t ∈ ts, t.profitLoss < 0) :
    ∀ s : Int × Int × Int, 0 ≤ s.2.1 → (ts.foldl DataManager.streakStep s).2.1 = s.2.1 := by
  induction ts with
  | nil => intro s _; rfl
  | cons t ts ih =>
    intro s hs
    rw [List.foldl_cons]
    have hb := streakStep_best_of_neg (h t (by simp)) hs
    rw [ih (fun x hx => h x (by simp [hx])) (DataManager.streakStep s t) (by rw [hb]; exact hs), hb]

theorem streak_all_pos (ts : List Trade) (h : ∀ t ∈ ts, 0 < t.profitLoss) :
    ∀ s : Int × Int × Int, s.2.2 ≤ 0 → (ts.foldl DataManager.streakStep s).2.2 = s.2.2 := by
  induction ts with
  | nil => intro s _; rfl
  | cons t ts ih =>
    intro s hs
    rw [List.foldl_cons]
    have hw := streakStep_worst_of_pos (h t (by simp)) hs
    rw [ih (fun x hx => h x (by simp [hx])) (DataManager.streakStep s t) (by rw [hw]; exact hs), hw]

/-- Claim C10: streak detection always reports bestStreak at least 0 and
worstStreak at most 0; when every scanned trade loses, bestStreak is
exactly 0 (never the least-negative run), and when every scanned trade
wins, worstStreak is exactly 0. -/
theorem C10_theorem (ts : List Trade) :
    (0 ≤ (DataManager.calculateStreaks ts).best ∧ (DataManager.calculateStreaks ts).worst ≤ 0)
    ∧ ((∀ t ∈ ts, t.profitLoss < 0) → (DataManager.calculateStreaks ts).best = 0)
    ∧ ((∀ t ∈ ts, 0 < t.profitLoss) → (DataManager.calculateStreaks ts).worst = 0) := by
  by_cases hlen : ts.length = 0
  · simp [DataManager.calculateStreaks, hlen]
  · simp only [DataManager.calculateStreaks, if_neg hlen]
    refine ⟨⟨streak_best_mono _ (0, 0, 0), streak_worst_mono _ (0, 0, 0)⟩, ?_, ?_⟩
    · intro h
      exact streak_all_neg (sortByExitDateDesc ts)
        (fun t ht => h t (mem_insertionSortBy.mp ht)) (0, 0, 0) (le_refl 0)
    · intro h
      exact streak_all_pos (sortByExitDateDesc ts)
        (fun t ht => h t (mem_insertionSortBy.mp ht)) (0, 0, 0) (le_refl 0)

/-- Claim C10, witness at an all-losing and an all-winning collection. -/
theorem C10_witness :
    (DataManager.calculateStreaks allLosersExample).best = 0
    ∧ (DataManager.calculateStreaks allWinnersExample).worst = 0 :=
  ⟨(C10_theorem allLosersExample).2.1 (by decide),
   (C10_theorem allWinnersExample).2.2 (by decide)⟩

theorem findIndex_eq_none {p : α → Bool} {l : List α} (h : ∀ x ∈ l, p x = false) :
    findIndex p l = none := by
  induction l with
  | nil => rfl
  | cons x xs ih =>
    simp only [findIndex, h x (by simp), Bool.false_eq_true, if_false,
      ih (fun y hy => h y (by simp [hy])), Option.map_none']

theorem filter_all_true {p : α → Bool} (l : List α) (h : ∀ x ∈ l, p x = true) :
    l.filter p = l := by
  induction l with
  | nil => rfl
  | cons x xs ih => simp [List.filter_cons, h x (by simp), ih (fun y hy => h y (by simp [hy]))]

/-- Claim C9: whenever create, update or delete returns an error (failed
validation or an unknown trade id), the stored collection is returned
unchanged, and an absent id makes update, delete and get error out while a
nonempty validation result makes create error out with the joined
messages. -/
theorem C9_theorem (ts : List Trade) (n : Nat) (td : Trade) (tid : Nat) (u : Updates) :
    (∀ e, (DataManager.addTrade ts n td).2 = Except.error e → (DataManager.addTrade ts n td).1 = ts)
    ∧ (∀ e, (DataManager.updateTrade ts tid u).2 = Except.error e →
        (DataManager.updateTrade ts tid u).1 = ts)
    ∧ (∀ e, (DataManager.deleteTrade ts tid).2 = Except.error e →
        (DataManager.deleteTrade ts tid).1 = ts)
    ∧ ((∀ t ∈ ts, t.id ≠ tid) →
        DataManager.updateTrade ts tid u = (ts, Except.error ("Trade not found"))
        ∧ DataManager.deleteTrade ts tid = (ts, Except.error ("Trade not found"))
        ∧ DataManager.getTrade ts tid = Except.error ("Trade not found"))
    ∧ (DataManager.validateTrade td ≠ [] →
        DataManager.addTrade ts n td =
          (ts, Except.error (String.intercalate (", ") (DataManager.validateTrade td)))) := by
  refine ⟨?_, ?_, ?_, ?_, ?_⟩
  · intro e he
    by_cases hv : DataManager.validateTrade td = []
    · exfalso
      simp only [DataManager.addTrade] at he
      rw [if_neg (by simp [hv])] at he
      simp at he
    · simp only [DataManager.addTrade]
      rw [if_pos hv]
  · intro e he
    rcases hfi : findIndex (fun t => t.id == tid) ts with _ | index
    · simp [DataManager.updateTrade, hfi]
    · rcases hg : ts[index]? with _ | old
      · simp [DataManager.updateTrade, hfi, hg]
      · by_cases hv : DataManager.validateTrade (applyUpdates old u) = []
        · exfalso
          simp only [DataManager.updateTrade, hfi, hg] at he
          rw [if_neg (by simp [hv])] at he
          simp at he
        · simp only [DataManager.updateTrade, hfi, hg]
          rw [if_pos hv]
  · intro e he
    by_cases hd : (ts.filter (fun t => !(t.id == tid))).length = ts.length
    · simp [DataManager.deleteTrade, hd]
    · exfalso
      simp only [DataManager.deleteTrade] at he
      rw [if_neg hd] at he
      simp at he
  · intro h
    have hfi : findIndex (fun t => t.id == tid) ts = none :=
      findIndex_eq_none (fun t ht => by simpa using h t ht)
    have hfil : ts.filter (fun t => !(t.id == tid)) = ts :=
      filter_all_true ts (fun t ht => by simpa using h t ht)
    have hfind : ts.find? (fun t => t.id == tid) = none :=
      List.find?_eq_none.mpr (fun t ht => by simpa using h t ht)
    exact ⟨by simp [DataManager.updateTrade, hfi],
           by simp [DataManager.deleteTrade, hfil],
           by simp [DataManager.getTrade, hfind]⟩
  · intro hv
    simp only [DataManager.addTrade]
    rw [if_pos hv]

/-- Claim C9, witness: an unknown id (99) leaves the one-element store
unchanged for update, delete and get, and invalid trade data makes create
error out without touching the store. -/
theorem C9_witness :
    (DataManager.updateTrade [storedTrade] 99 exitPriceUpdate =
        ([storedTrade], Except.error ("Trade not found"))
      ∧ DataManager.deleteTrade [storedTrade] 99 = ([storedTrade], Except.error ("Trade not found"))
      ∧ DataManager.getTrade [storedTrade] 99 = Except.error ("Trade not found"))
    ∧ DataManager.addTrade [storedTrade] 2 invalidTradeData =
        ([storedTrade], Except.error (String.intercalate (", ")
          (DataManager.validateTrade invalidTradeData))) :=
  ⟨(C9_theorem [storedTrade] 2 invalidTradeData 99 exitPriceUpdate).2.2.2.1 (by decide),
   (C9_theorem [storedTrade] 2 invalidTradeData 99 exitPriceUpdate).2.2.2.2 (by decide)⟩

theorem recomputeDerived_consistent (t0 : Trade) :
    derivedConsistent (DataManager.recomputeDerived t0) :=
  ⟨rfl, rfl, rfl, rfl, rfl, rfl⟩

/-- Claim C5: immediately after a successful create or update, each of the
six stored derived fields equals its pure recomputation from the stored
record; the six are recomputed together on the same write. -/
theorem C5_theorem :
    (∀ (ts : List Trade) (n : Nat) (td t2 : Trade),
       (DataManager.addTrade ts n td).2 = Except.ok t2 →
       (DataManager.addTrade ts n td).1 = ts ++ [t2] ∧ derivedConsistent t2)
    ∧ (∀ (ts : List Trade) (tid : Nat) (u : Updates) (t2 : Trade),
       (DataManager.updateTrade ts tid u).2 = Except.ok t2 → derivedConsistent t2) := by
  constructor
  · intro ts n td t2 h
    by_cases hv : DataManager.validateTrade td = []
    · simp only [DataManager.addTrade] at h ⊢
      rw [if_neg (by simp [hv])] at h ⊢
      have ht2 : DataManager.recomputeDerived { td with id := n } = t2 := by simpa using h
      exact ⟨by rw [← ht2], ht2 ▸ recomputeDerived_consistent _⟩
    · exfalso
      simp only [DataManager.addTrade] at h
      rw [if_pos hv] at h
      simp at h
  · intro ts tid u t2 h
    rcases hfi : findIndex (fun t => t.id == tid) ts with _ | index
    · simp [DataManager.updateTrade, hfi] at h
    · rcases hg : ts[index]? with _ | old
      · simp [DataManager.updateTrade, hfi, hg] at h
      · by_cases hv : DataManager.validateTrade (applyUpdates old u) = []
        · have ht2 : DataManager.recomputeDerived (applyUpdates old u) = t2 := by
            simp only [DataManager.updateTrade, hfi, hg] at h
            rw [if_neg (by simp [hv])] at h
            simpa using h
          exact ht2 ▸ recomputeDerived_consistent _
        · exfalso
          simp only [DataManager.updateTrade, hfi, hg] at h
          rw [if_pos hv] at h
          simp at h

/-- Claim C5, witness at a concrete create and a concrete update. -/
theorem C5_witness :
    ((DataManager.addTrade [] 1 validTradeData).1 = [] ++ [addedTrade]
      ∧ derivedConsistent addedTrade)
    ∧ derivedConsistent updatedTrade :=
  ⟨C5_theorem.1 [] 1 validTradeData addedTrade rfl,
   C5_theorem.2 [storedTrade] 1 exitPriceUpdate updatedTrade rfl⟩

theorem ddScan_dd_le (ts : List Trade) :
    ∀ peak dd total : ℚ, dd ≤ DataManager.ddScan peak dd total ts := by
  induction ts with
  | nil => intro peak dd total; exact le_refl _
  | cons t ts ih =>
    intro peak dd total
    simp only [DataManager.ddScan]
    exact le_trans (le_max_left _ _) (ih _ _ _)

theorem runningTotal_zero (pls : List ℚ) : runningTotal pls 0 = 0 := rfl

theorem runningTotal_cons (p : ℚ) (l : List ℚ) (k : ℕ) :
    runningTotal (p :: l) (k + 1) = p + runningTotal l k := by
  simp [runningTotal, List.take_succ_cons]

theorem runningPeak_zero (pls : List ℚ) : runningPeak pls 0 = 0 := by
  rw [runningPeak, show List.range 1 = [0] from rfl]
  simp [runningTotal_zero]

theorem peakFrom_zero (peak total : ℚ) (pls : List ℚ) : peakFrom peak total pls 0 = peak := by
  simp [peakFrom]

theorem peakFrom_cons (peak total p : ℚ) (l : List ℚ) (k : ℕ) :
    peakFrom peak total (p :: l) (k + 1) = peakFrom (max peak (total + p)) (total + p) l k := by
  simp only [peakFrom, List.range_succ_eq_map, List.map_cons, List.map_map, List.foldl_cons,
    Function.comp_def, Nat.succ_eq_add_one, runningTotal_cons, runningTotal_zero, add_zero,
    ← add_assoc]

theorem scanSpec_cons (peak dd total p : ℚ) (pls : List ℚ) :
    scanSpec peak dd total (p :: pls) =
      scanSpec (max peak (total + p)) (max dd (max peak (total + p) - (total + p)))
        (total + p) pls := by
  simp only [scanSpec, List.length_cons, List.range_succ_eq_map, List.map_cons, List.map_map,
    List.foldl_cons, Function.comp_def, Nat.succ_eq_add_one, peakFrom_cons, peakFrom_zero,
    runningTotal_cons, runningTotal_zero, add_zero, ← add_assoc]

theorem ddScan_eq_scanSpec (ts : List Trade) :
    ∀ peak dd total : ℚ,
      DataManager.ddScan peak dd total ts =
        scanSpec peak dd total (ts.map (fun t => t.profitLoss)) := by
  induction ts with
  | nil => intro peak dd total; simp [DataManager.ddScan, scanSpec]
  | cons t ts ih =>
    intro peak dd total
    rw [List.map_cons, scanSpec_cons]
    simp only [DataManager.ddScan]
    exact ih _ _ _

theorem runningPeak_succ (pls : List ℚ) (k : ℕ) :
    runningPeak pls (k + 1) = peakFrom 0 0 pls (k + 1) := by
  simp only [runningPeak, peakFrom, List.range_succ_eq_map, List.map_cons, List.map_map,
    Function.comp_def, Nat.succ_eq_add_one, List.foldl_cons, runningTotal_zero, zero_add, max_self]

theorem scanSpec_eq_specMaxDrawdown (pls : List ℚ) :
    scanSpec 0 0 0 pls = specMaxDrawdown pls := by
  simp only [specMaxDrawdown, scanSpec, List.range_succ_eq_map, List.map_cons, List.map_map,
    Function.comp_def, Nat.succ_eq_add_one, List.foldl_cons, runningTotal_zero, runningPeak_zero,
    runningPeak_succ, zero_add, sub_zero, max_self]

/-- Claim C7: max drawdown over the closed trades sorted ascending by exit
date equals the spec formula (maximum over all steps of running peak minus
running total, both starting at 0), is non-negative on every input, and
equals 150 on the exit-date-ordered sequence [+100, -150, +50]. -/
theorem C7_theorem :
    (∀ ts : List Trade, 0 ≤ Calculations.calculateMaxDrawdown ts)
    ∧ (∀ ts : List Trade, 0 ≤ DataManager.calculateMaxDrawdown ts)
    ∧ (∀ ts : List Trade,
        Calculations.calculateMaxDrawdown ts =
          specMaxDrawdown
            ((sortByExitDateAsc (ts.filter (fun t => decide (t.status = Status.closed)))).map
              (fun t => t.profitLoss)))
    ∧ Calculations.calculateMaxDrawdown drawdownExample = 150
    ∧ DataManager.calculateMaxDrawdown drawdownExample = 150 := by
  refine ⟨?_, ?_, ?_, ?_, ?_⟩
  · intro ts
    unfold Calculations.calculateMaxDrawdown
    by_cases h : (ts.filter (fun t => decide (t.status = Status.closed))).length = 0
    · rw [if_pos h]
    · rw [if_neg h]; exact ddScan_dd_le _ _ _ _
  · intro ts
    unfold DataManager.calculateMaxDrawdown
    by_cases h : ts.length = 0
    · rw [if_pos h]
    · rw [if_neg h]; exact ddScan_dd_le _ _ _ _
  · intro ts
    have key : Calculations.calculateMaxDrawdown ts =
        DataManager.ddScan 0 0 0
          (sortByExitDateAsc (ts.filter (fun t => decide (t.status = Status.closed)))) := by
      unfold Calculations.calculateMaxDrawdown
      by_cases h : (ts.filter (fun t => decide (t.status = Status.closed))).length = 0
      · rw [if_pos h, List.length_eq_zero.mp h]; rfl
      · rw [if_neg h]
    rw [key, ddScan_eq_scanSpec, scanSpec_eq_specMaxDrawdown]
  · norm_num [Calculations.calculateMaxDrawdown, DataManager.ddScan, sortByExitDateAsc,
      insertionSortBy, insertBy, exitKey, drawdownExample, baseTrade, List.filter, max_def]
  · norm_num [DataManager.calculateMaxDrawdown, DataManager.ddScan, sortByExitDateAsc,
      insertionSortBy, insertBy, exitKey, drawdownExample, baseTrade, max_def]
